import Mathlib

/-!
Verification of the Ryagent conversation-task core: a shallow embedding of
the data model (`ryagent/models.py`), the event bus (`ryagent/runtime/events.py`),
the tool registry (`ryagent/tools/base.py`), the built-in tools
(`ryagent/tools/core_tools.py`) and the task executor
(`ryagent/agents/base_agent.py`), together with theorems settling the
specification claims about them.
-/

namespace Ryagent

/-! ### Generic helpers: Python `dict` as an insertion-ordered association list -/

/-- Lookup in an association list, mirroring Python `d.get(k)`. -/
def dictGet {κ α : Type} [DecidableEq κ] : List (κ × α) → κ → Option α
  | [], _ => Option.none
  | (k, v) :: rest, key => if k = key then some v else dictGet rest key

/-- Insert-or-overwrite in an association list, mirroring Python `d[k] = v`
(overwrite keeps the original position; a fresh key is appended). -/
def dictSet {κ α : Type} [DecidableEq κ] : List (κ × α) → κ → α → List (κ × α)
  | [], key, v => [(key, v)]
  | (k, w) :: rest, key, v =>
      if k = key then (key, v) :: rest else (k, w) :: dictSet rest key v

/-- Accumulator-style splitting of a character list on whitespace runs
(the accumulator holds the current token, reversed). -/
def splitWsAux : List Char → List Char → List String
  | [], acc => if acc = [] then [] else [String.mk acc.reverse]
  | c :: cs, acc =>
      if c.isWhitespace then
        if acc = [] then splitWsAux cs []
        else String.mk acc.reverse :: splitWsAux cs []
      else splitWsAux cs (c :: acc)

/-- Python `s.split()`: split on runs of whitespace, dropping empty pieces
(`s.strip().split()` gives the same list, so this models both call sites in
`ShellRunTool`). -/
def pySplit (s : String) : List String :=
  splitWsAux s.data []

/-- Python `s.startswith(pre)`. -/
def pyStartsWith (s pre : String) : Bool :=
  pre.data.isPrefixOf s.data

/-! ### Data model (`ryagent/models.py`) -/

/-- `Role = Literal["user", "assistant", "tool", "system", "error"]`. -/
inductive Role
  | user
  | assistant
  | tool
  | system
  | error
deriving DecidableEq

/-- One pending tool-call request as produced by `LLMClient.generate_response`
(`{"id": …, "type": …, "function": {"name": …, "arguments": …}}`); the
executor reads only `id`, `function.name` and `function.arguments`. -/
structure ToolCall where
  id : String
  funcName : String
  arguments : String
deriving DecidableEq

/-- The keys of `Message.meta` that the code reads or writes
(`tool_calls`, `tool_call_id`, `finish_reason`, `error_type`);
an absent key is `Option.none`. -/
structure MessageMeta where
  tool_calls : Option (List ToolCall) := Option.none
  tool_call_id : Option String := Option.none
  finish_reason : Option String := Option.none
  error_type : Option String := Option.none
deriving DecidableEq

/-- `Message` dataclass: role, content, meta (default empty dict). -/
structure Message where
  role : Role
  content : String
  meta : MessageMeta := {}
deriving DecidableEq

/-- `AgentState` dataclass. -/
structure AgentState where
  name : String
  system_prompt : String
  history : List Message := []
  running : Bool := false
  current_task_id : Option String := Option.none
deriving DecidableEq

/-! ### Values carried by tool results (Python `Dict[str, Any]` payloads) -/

/-- A flat Python value, enough for the tool-argument and tool-result
dictionaries the executor passes around. -/
inductive PyVal
  | str (s : String)
  | int (n : Int)
  | bool (b : Bool)
  | pyNone
deriving DecidableEq

/-- A Python `Dict[str, Any]` of flat values. -/
abbrev PyDict := List (String × PyVal)

/-- Parsed tool-call keyword arguments (`json.loads` result used as `**args`). -/
abbrev ToolArgs := PyDict

/-- The result dictionaries flowing out of `ToolRegistry.execute_tool` and the
synthesized `error_result` of `BaseAgent._handle_tool_calls`: each is one of
`{"error": …, "success": False}` or `{"result": …, "success": True}`. -/
structure DispatchResult where
  success : Bool
  error : Option String := Option.none
  result : Option PyDict := Option.none
deriving DecidableEq

/-! ### Events (`ryagent/runtime/events.py`) -/

/-- `EventType` enum. -/
inductive EventType
  | user_prompt
  | agent_reply
  | tool_request
  | tool_result
  | error
  | interrupt
deriving DecidableEq

/-- The `data` dict of each event subclass. -/
inductive EventData
  | promptData (prompt : String)
  | messageData (message : Message)
  | toolRequestData (tool_name : String) (args : ToolArgs) (tool_call_id : String)
  | toolResultData (tool_call_id : String) (result : DispatchResult)
  | errorData (error : String)
  | emptyData
deriving DecidableEq

/-- `Event` dataclass. -/
structure Event where
  type : EventType
  tab_id : String
  data : EventData
  task_id : Option String := Option.none
deriving DecidableEq

/-- `UserPromptEvent(tab_id, prompt, task_id)`. -/
def UserPromptEvent (tab_id prompt task_id : String) : Event :=
  { type := EventType.user_prompt, tab_id := tab_id,
    data := EventData.promptData prompt, task_id := some task_id }

/-- `AgentReplyEvent(tab_id, message, task_id)`. -/
def AgentReplyEvent (tab_id : String) (message : Message) (task_id : String) : Event :=
  { type := EventType.agent_reply, tab_id := tab_id,
    data := EventData.messageData message, task_id := some task_id }

/-- `ToolRequestEvent(tab_id, tool_name, args, tool_call_id, task_id)`. -/
def ToolRequestEvent (tab_id tool_name : String) (args : ToolArgs)
    (tool_call_id task_id : String) : Event :=
  { type := EventType.tool_request, tab_id := tab_id,
    data := EventData.toolRequestData tool_name args tool_call_id,
    task_id := some task_id }

/-- `ToolResultEvent(tab_id, tool_call_id, result, task_id)`. -/
def ToolResultEvent (tab_id tool_call_id : String) (result : DispatchResult)
    (task_id : String) : Event :=
  { type := EventType.tool_result, tab_id := tab_id,
    data := EventData.toolResultData tool_call_id result,
    task_id := some task_id }

/-- `ErrorEvent(tab_id, error, task_id=None)`. -/
def ErrorEvent (tab_id error : String) (task_id : Option String) : Event :=
  { type := EventType.error, tab_id := tab_id,
    data := EventData.errorData error, task_id := task_id }

/-- `InterruptEvent(tab_id, task_id)`: defined in the code but never published. -/
def InterruptEvent (tab_id task_id : String) : Event :=
  { type := EventType.interrupt, tab_id := tab_id,
    data := EventData.emptyData, task_id := some task_id }

/-! ### The event bus (`ryagent/runtime/events.py`, class `EventBus`)

An `asyncio.Queue(maxsize)` is modelled by its bound and its item list;
`maxsize = 0` (the default, used for every conversation queue created by
`get_queue`) means unbounded, exactly as in asyncio.  An awaited
`queue.put(item)` never raises `QueueFull` — it suspends until a slot is
free — so `publish` is a function to `Option EventBus`: `some` when every
`put` completes immediately, `none` when a full subscriber queue makes the
awaited `put` (and hence `publish`) block. -/

/-- A subscriber queue: `asyncio.Queue(maxsize)` with its current items. -/
structure SubQueue where
  maxsize : Nat
  items : List Event
deriving DecidableEq

/-- `asyncio.Queue.full()`: true iff `maxsize > 0` and at least `maxsize`
items are queued. -/
def SubQueue.isFull (q : SubQueue) : Bool :=
  decide (0 < q.maxsize) && decide (q.maxsize ≤ q.items.length)

/-- `await q.put(e)` on a subscriber queue: completes immediately unless the
queue is full, in which case it blocks (`Option.none`). -/
def SubQueue.putAwait (q : SubQueue) (e : Event) : Option SubQueue :=
  if q.isFull then Option.none
  else some { q with items := q.items ++ [e] }

/-- Sequentially `await put` onto every subscriber queue, in registration
order; blocks as soon as one queue is full. -/
def putAllSubs : List SubQueue → Event → Option (List SubQueue)
  | [], _ => some []
  | q :: qs, e =>
      match q.putAwait e with
      | Option.none => Option.none
      | some q1 =>
          match putAllSubs qs e with
          | Option.none => Option.none
          | some qs1 => some (q1 :: qs1)

/-- `EventBus` state: conversation-keyed queues (always created unbounded by
`get_queue`, hence plain lists) and per-kind subscriber queue lists. -/
structure EventBus where
  queues : List (String × List Event)
  subscribers : List (EventType × List SubQueue)
deriving DecidableEq

/-- `EventBus.publish(event)`: put onto the conversation queue for
`event.tab_id` (created on first use; unbounded, so this `put` never blocks),
then `await put` onto every subscriber queue registered for `event.type`.
The code wraps each subscriber `put` in `except asyncio.QueueFull: pass`,
but an awaited `put` never raises `QueueFull` — it blocks — so that handler
is unreachable and a full subscriber queue blocks the whole `publish`
(result `Option.none`). -/
def EventBus.publish (bus : EventBus) (e : Event) : Option EventBus :=
  let convItems := (dictGet bus.queues e.tab_id).getD []
  let bus1 : EventBus :=
    { bus with queues := dictSet bus.queues e.tab_id (convItems ++ [e]) }
  match dictGet bus1.subscribers e.type with
  | Option.none => some bus1
  | some subs =>
      match putAllSubs subs e with
      | Option.none => Option.none
      | some subs1 =>
          some { bus1 with subscribers := dictSet bus1.subscribers e.type subs1 }

/-! ### Tool registry (`ryagent/tools/base.py`)

A handler's `await tool.run(**kwargs)` can return a result dict, raise an
ordinary exception (caught by `except Exception` in `execute_tool`), or be
interrupted by `asyncio.CancelledError` — which derives from `BaseException`
and is therefore NOT caught by `except Exception` and propagates. -/

/-- Outcome of `await tool.run(**kwargs)`. -/
inductive HandlerOutcome
  | ok (result : PyDict)
  | raiseExc (msg : String)
  | cancelled
deriving DecidableEq

/-- A registered tool: its spec name and its `run` coroutine. -/
structure ToolEntry where
  specName : String
  run : ToolArgs → HandlerOutcome

/-- `ToolRegistry` state: `_tools` dict and `_authorized_tools` list. -/
structure ToolRegistry where
  tools : List (String × ToolEntry) := []
  authorized_tools : List String := []

/-- `ToolRegistry.register(tool)`: `self._tools[tool.spec["name"]] = tool`. -/
def ToolRegistry.register (r : ToolRegistry) (t : ToolEntry) : ToolRegistry :=
  { r with tools := dictSet r.tools t.specName t }

/-- `ToolRegistry.authorize_tool(name)`: append if not present. -/
def ToolRegistry.authorize_tool (r : ToolRegistry) (tool_name : String) : ToolRegistry :=
  if tool_name ∈ r.authorized_tools then r
  else { r with authorized_tools := r.authorized_tools ++ [tool_name] }

/-- `ToolRegistry.is_authorized(name)`. -/
def ToolRegistry.is_authorized (r : ToolRegistry) (tool_name : String) : Bool :=
  decide (tool_name ∈ r.authorized_tools)

/-- `ToolRegistry.get_tool(name)`: `self._tools.get(name)`. -/
def ToolRegistry.get_tool (r : ToolRegistry) (tool_name : String) : Option ToolEntry :=
  dictGet r.tools tool_name

/-- Outcome of `await registry.execute_tool(...)`: either it returns a result
dict (recording whether the handler was actually entered), or a
`CancelledError` from the handler propagates out of `execute_tool`. -/
inductive ExecOutcome
  | returned (result : DispatchResult) (handlerInvoked : Bool)
  | propagated
deriving DecidableEq

/-- `ToolRegistry.execute_tool(tool_name, **kwargs)`: authorization check
first, then registration lookup, then the handler with `except Exception`
converting handler exceptions to a failure dict. -/
def ToolRegistry.execute_tool (r : ToolRegistry) (tool_name : String)
    (kwargs : ToolArgs) : ExecOutcome :=
  if ¬ r.is_authorized tool_name then
    ExecOutcome.returned
      { success := false,
        error := some ("Tool \x27" ++ tool_name ++ "\x27 is not authorized") }
      false
  else
    match r.get_tool tool_name with
    | Option.none =>
        ExecOutcome.returned
          { success := false,
            error := some ("Tool \x27" ++ tool_name ++ "\x27 not found") }
          false
    | some t =>
        match t.run kwargs with
        | HandlerOutcome.ok res =>
            ExecOutcome.returned { success := true, result := some res } true
        | HandlerOutcome.raiseExc m =>
            ExecOutcome.returned
              { success := false,
                error := some ("Tool execution failed: " ++ m) }
              true
        | HandlerOutcome.cancelled => ExecOutcome.propagated

/-! ### Built-in tools (`ryagent/tools/core_tools.py`)

The operating-system pieces are explicit parameters: process execution is an
abstract `ProcOutcome`, `pathlib.Path.resolve` is an abstract
`String → Option String` (`Option.none` = the resolution raised), and the
filesystem visible to a run is an `FsView` snapshot.  Each `run` returns its
result dict together with the list of operating-system side effects it
performed, so "no process / no file handle" is the effect list being empty. -/

/-- `Path.__truediv__`: joining an absolute `p` replaces the base. -/
def pyJoin (ws p : String) : String :=
  if pyStartsWith p "/" then p else ws ++ "/" ++ p

/-- `ShellRunTool._is_command_allowed(cmd)`: deny list checked on the first
whitespace token before the (truthy) allow list. -/
def isCommandAllowed (allowed denied : List String) (cmd : String) : Bool :=
  match pySplit cmd with
  | [] => false
  | base :: _ =>
      if base ∈ denied then false
      else if allowed ≠ [] && base ∉ allowed then false
      else true

/-- Result dict of `ShellRunTool.run`. -/
structure ShellResult where
  error : Option String
  stdout : String
  stderr : String
  returncode : Int
deriving DecidableEq

/-- What the spawned child process did (abstracting
`asyncio.create_subprocess_shell` + `wait_for(communicate, timeout)`). -/
inductive ProcOutcome
  | completed (stdout stderr : String) (returncode : Int)
  | timedOut
  | failed (msg : String)
deriving DecidableEq

/-- `ShellRunTool.run(cmd, timeout_s)`: the Boolean records whether a child
process was created. -/
def shellRun (allowed denied : List String) (cmd : String) (timeout_s : Int)
    (proc : ProcOutcome) : ShellResult × Bool :=
  if ¬ isCommandAllowed allowed denied cmd then
    ({ error := some ("Command not allowed: " ++
          (match pySplit cmd with | [] => "empty" | t :: _ => t)),
       stdout := "", stderr := "", returncode := -1 }, false)
  else
    match proc with
    | ProcOutcome.completed out err rc =>
        ({ error := Option.none, stdout := out.take 4096,
           stderr := err.take 4096, returncode := rc }, true)
    | ProcOutcome.timedOut =>
        ({ error := some ("Command timed out after " ++ toString timeout_s ++
             " seconds"),
           stdout := "", stderr := "", returncode := -1 }, true)
    | ProcOutcome.failed m =>
        ({ error := some ("Command execution failed: " ++ m),
           stdout := "", stderr := "", returncode := -1 }, true)

/-- `FileReadTool._is_path_safe` / `FileWriteTool._is_path_safe` (identical
bodies): resolve both paths and compare by string-prefix containment;
any exception makes the path unsafe. -/
def isPathSafe (resolve : String → Option String) (workspace path : String) : Bool :=
  match resolve (pyJoin workspace path), resolve workspace with
  | some fp, some wp => pyStartsWith fp wp
  | _, _ => false

/-- Snapshot of the filesystem state the tool run observes at the joined
(unresolved) target path. -/
structure FsView where
  pathExists : Bool
  isFile : Bool
  st_size : Nat
  readData : String
  readRaises : Option String := Option.none
  writeRaises : Option String := Option.none

/-- Operating-system side effects of the file tools. -/
inductive FsEffect
  | openRead (path : String)
  | openWrite (path : String)
  | mkdirParentsOf (path : String)
deriving DecidableEq

/-- Result dict of `FileReadTool.run`. -/
structure ReadResult where
  error : Option String
  content : String
  size : Nat
  truncated : Bool
deriving DecidableEq

/-- `FileReadTool.run(path, bytes)`. -/
def fileReadRun (resolve : String → Option String) (fs : FsView)
    (workspace path : String) (byteLimit : Nat) : ReadResult × List FsEffect :=
  if ¬ isPathSafe resolve workspace path then
    ({ error := some ("Path outside workspace: " ++ path),
       content := "", size := 0, truncated := false }, [])
  else
    let file_path := pyJoin workspace path
    if ¬ fs.pathExists then
      ({ error := some ("File not found: " ++ path),
         content := "", size := 0, truncated := false }, [])
    else if ¬ fs.isFile then
      ({ error := some ("Not a file: " ++ path),
         content := "", size := 0, truncated := false }, [])
    else
      match fs.readRaises with
      | some m =>
          ({ error := some ("Failed to read file: " ++ m),
             content := "", size := 0, truncated := false }, [])
      | Option.none =>
          ({ error := Option.none, content := fs.readData,
             size := fs.st_size, truncated := decide (fs.st_size > byteLimit) },
           [FsEffect.openRead file_path])

/-- `mode ∈ {create, overwrite}` of `FileWriteTool.run`. -/
inductive WriteMode
  | create
  | overwrite
deriving DecidableEq

/-- Result dict of `FileWriteTool.run`. -/
structure WriteResult where
  error : Option String
  bytes_written : Nat
deriving DecidableEq

/-- `FileWriteTool.run(path, content, mode)`. -/
def fileWriteRun (resolve : String → Option String) (fs : FsView)
    (workspace path content : String) (mode : WriteMode) :
    WriteResult × List FsEffect :=
  if ¬ isPathSafe resolve workspace path then
    ({ error := some ("Path outside workspace: " ++ path), bytes_written := 0 }, [])
  else
    let file_path := pyJoin workspace path
    if mode = WriteMode.create && fs.pathExists then
      ({ error := some ("File already exists: " ++ path), bytes_written := 0 }, [])
    else
      match fs.writeRaises with
      | some m =>
          ({ error := some ("Failed to write file: " ++ m), bytes_written := 0 }, [])
      | Option.none =>
          ({ error := Option.none, bytes_written := content.utf8ByteSize },
           [FsEffect.mkdirParentsOf file_path, FsEffect.openWrite file_path])

/-! ### Task control (`BaseAgent.start_task` / `BaseAgent.interrupt`)

`start_task` and `interrupt` are straight-line coroutine-management code;
their behaviour is captured as the sequence of scheduler actions they
perform on `self._current_task`, in program order. -/

/-- Handle on an `asyncio.Task`: an identifying index and `task.done()`. -/
structure TaskRef where
  idx : Nat
  done : Bool
deriving DecidableEq

/-- The agent fields touched by `start_task` / `interrupt`. -/
structure TaskCtl where
  current_task : Option TaskRef
deriving DecidableEq

/-- Scheduler-level actions these methods can perform, in program order:
setting `self._cancelled`, `task.cancel()`, `await task` (waiting for its
unwind to complete), `asyncio.create_task(coro)`, and publishing an event
(neither method publishes, but the action exists so that "publishes
nothing" is a statement, not a typing accident). -/
inductive ControlAction
  | setCancelledFlag
  | cancelTask (idx : Nat)
  | awaitTask (idx : Nat)
  | createTask (idx : Nat)
  | publishEvent (e : Event)
deriving DecidableEq

/-- `BaseAgent.start_task(coro)`: cancel the prior not-done task (without
awaiting it), then immediately `create_task` the new one and store it. -/
def startTask (c : TaskCtl) (newIdx : Nat) : TaskCtl × List ControlAction :=
  let cancelActs :=
    match c.current_task with
    | some t => if ¬ t.done then [ControlAction.cancelTask t.idx] else []
    | Option.none => []
  ({ current_task := some { idx := newIdx, done := false } },
   cancelActs ++ [ControlAction.createTask newIdx])

/-- `BaseAgent.interrupt()`: set `self._cancelled`, then cancel AND await the
current not-done task (swallowing its `CancelledError`). -/
def interruptActions (c : TaskCtl) : List ControlAction :=
  ControlAction.setCancelledFlag ::
    (match c.current_task with
     | some t =>
         if ¬ t.done then [ControlAction.cancelTask t.idx, ControlAction.awaitTask t.idx]
         else []
     | Option.none => [])

/-- Whether an action publishes an event. -/
def ControlAction.isPublish : ControlAction → Bool
  | ControlAction.publishEvent _ => true
  | _ => false

/-! ### Task executor (`ryagent/agents/base_agent.py`)

`process_prompt` is embedded as a pure function over the agent state plus an
environment holding the external inputs of one run: the generated task id,
the outcome of the single awaited model call, the values of the cooperative
`self._cancelled` flag at its two checkpoints (the flag is cleared at the
start of the run and can only be set by `interrupt()` while the run is
suspended), `json.loads` / `json.dumps`, and the tool registry.  Python
exceptions are threaded explicitly: `asyncio.CancelledError` versus an
ordinary `Exception`, matching the two `except` clauses. -/

/-- The two classes of exception `process_prompt` distinguishes. -/
inductive PyExc
  | cancelledError
  | exc (msg : String)
deriving DecidableEq

/-- Outcome of `await llm_client.generate_response(...)`: the call returns a
`Message` (`generate_response` catches its own `Exception`s and returns a
`role="error"` message for them), or the awaiting task is hard-cancelled at
this suspension point, or some other exception propagates from the await. -/
inductive LLMOutcome
  | reply (response : Message)
  | cancelledAtAwait
  | raiseAtAwait (msg : String)

/-- External inputs of one `process_prompt` run. -/
structure PromptEnv where
  task_id : String
  llm : LLMOutcome
  flagAfterLLM : Bool
  flagBeforeCall : Nat → Bool
  parseArgs : String → Except String ToolArgs
  dumps : DispatchResult → String
  registry : ToolRegistry

/-- The mutable context of a run: the agent state, the sequence of events
passed to `event_bus.publish` (every publish goes to the unbounded
conversation queue, so none of these publishes blocks), and the trace of
`registry.execute_tool` invocations. -/
structure RunState where
  agent : AgentState
  events : List Event
  invoked : List (String × ToolArgs)

/-- The synthesized `error_result` of `_handle_tool_calls` on a JSON parse
failure (`{"error": f"Invalid JSON in tool arguments: {e}", "success": False}`). -/
def invalidJsonResult (e : String) : DispatchResult :=
  { success := false, error := some ("Invalid JSON in tool arguments: " ++ e) }

/-- The `tool` message built by `_send_tool_result`. -/
def toolResultMessage (env : PromptEnv) (tool_call_id : String)
    (result : DispatchResult) : Message :=
  { role := Role.tool, content := env.dumps result,
    meta := { tool_call_id := some tool_call_id } }

/-- `BaseAgent._send_tool_result(tool_call_id, result, tab_id, task_id)`:
append the tool message to history, publish `ToolResultEvent`. -/
def sendToolResult (env : PromptEnv) (tab_id tool_call_id : String)
    (result : DispatchResult) (s : RunState) : RunState :=
  { s with
    agent := { s.agent with
      history := s.agent.history ++ [toolResultMessage env tool_call_id result] },
    events := s.events ++ [ToolResultEvent tab_id tool_call_id result env.task_id] }

/-- The `for tool_call in tool_calls:` loop of `_handle_tool_calls`; `i` is
the index of the current call, used to look up the cooperative-flag value
observed at its head.  Returns the final context and the exception, if any,
propagating out of the loop (a hard cancellation inside `execute_tool`). -/
def toolCallLoop (env : PromptEnv) (tab_id : String) :
    List ToolCall → Nat → RunState → RunState × Option PyExc
  | [], _, s => (s, Option.none)
  | tc :: rest, i, s =>
      if env.flagBeforeCall i then (s, Option.none)
      else
        match env.parseArgs tc.arguments with
        | Except.error e =>
            toolCallLoop env tab_id rest (i + 1)
              (sendToolResult env tab_id tc.id (invalidJsonResult e) s)
        | Except.ok args =>
            let s1 : RunState :=
              { s with
                events := s.events ++
                  [ToolRequestEvent tab_id tc.funcName args tc.id env.task_id],
                invoked := s.invoked ++ [(tc.funcName, args)] }
            match env.registry.execute_tool tc.funcName args with
            | ExecOutcome.propagated => (s1, some PyExc.cancelledError)
            | ExecOutcome.returned result _ =>
                toolCallLoop env tab_id rest (i + 1)
                  (sendToolResult env tab_id tc.id result s1)

/-- `BaseAgent._handle_tool_calls(response, tab_id, task_id)`: append the
assistant message, publish `AgentReply`, then run the tool-call loop. -/
def handleToolCalls (env : PromptEnv) (response : Message) (tab_id : String)
    (s : RunState) : RunState × Option PyExc :=
  let s1 : RunState :=
    { s with
      agent := { s.agent with history := s.agent.history ++ [response] },
      events := s.events ++ [AgentReplyEvent tab_id response env.task_id] }
  toolCallLoop env tab_id (response.meta.tool_calls.getD []) 0 s1

/-- The `try:` body of `process_prompt` (lines 37–67): user message,
`UserPrompt` event, the model call, the cooperative-cancellation check, the
model-failure check, and the tool-call / plain-reply branches. -/
def promptBody (env : PromptEnv) (prompt tab_id : String) (s : RunState) :
    RunState × Option PyExc :=
  let userMessage : Message := { role := Role.user, content := prompt }
  let s1 : RunState :=
    { s with
      agent := { s.agent with history := s.agent.history ++ [userMessage] },
      events := s.events ++ [UserPromptEvent tab_id prompt env.task_id] }
  match env.llm with
  | LLMOutcome.cancelledAtAwait => (s1, some PyExc.cancelledError)
  | LLMOutcome.raiseAtAwait m => (s1, some (PyExc.exc m))
  | LLMOutcome.reply response =>
      if env.flagAfterLLM then (s1, Option.none)
      else if response.role = Role.error then
        ({ s1 with
           events := s1.events ++
             [ErrorEvent tab_id response.content (some env.task_id)] },
         Option.none)
      else if (response.meta.tool_calls).isSome then
        handleToolCalls env response tab_id s1
      else
        ({ s1 with
           agent := { s1.agent with history := s1.agent.history ++ [response] },
           events := s1.events ++ [AgentReplyEvent tab_id response env.task_id] },
         Option.none)

/-- What `process_prompt` leaves behind when control returns to the caller:
the agent state, the published events, the registry invocations, and the
exception re-raised to the caller (`CancelledError` only — ordinary
exceptions are swallowed after publishing an `Error` event). -/
structure PromptOutcome where
  state : AgentState
  events : List Event
  invoked : List (String × ToolArgs)
  raised : Option PyExc

/-- `BaseAgent.process_prompt(prompt, tab_id)`: set `current_task_id` and
`running`, clear the flag, run the body under
`except asyncio.CancelledError` (publish "Task was cancelled", re-raise) /
`except Exception` (publish "Agent error: …", swallow) /
`finally` (clear `running` and `current_task_id`). -/
def processPrompt (env : PromptEnv) (agent0 : AgentState)
    (prompt tab_id : String) : PromptOutcome :=
  let agent1 : AgentState :=
    { agent0 with current_task_id := some env.task_id, running := true }
  let r := promptBody env prompt tab_id { agent := agent1, events := [], invoked := [] }
  let s2 : RunState :=
    match r.2 with
    | some PyExc.cancelledError =>
        { r.1 with events := r.1.events ++
            [ErrorEvent tab_id "Task was cancelled" (some env.task_id)] }
    | some (PyExc.exc m) =>
        { r.1 with events := r.1.events ++
            [ErrorEvent tab_id ("Agent error: " ++ m) (some env.task_id)] }
    | Option.none => r.1
  { state := { s2.agent with running := false, current_task_id := Option.none },
    events := s2.events,
    invoked := s2.invoked,
    raised :=
      match r.2 with
      | some PyExc.cancelledError => some PyExc.cancelledError
      | _ => Option.none }

/-! ### Concrete fixtures used by the witness theorems -/

/-- A resolver for a tiny filesystem: workspace `/ws`, and
`/ws/../secret` resolving to `/secret`. -/
def resolveEx (s : String) : Option String :=
  if s = "/ws/../secret" then some "/secret"
  else if s = "/ws" then some "/ws"
  else some s

/-- An arbitrary filesystem snapshot (irrelevant on the rejection paths). -/
def fsEx : FsView :=
  { pathExists := true, isFile := true, st_size := 3, readData := "abc" }

/-- A registered tool whose handler always succeeds. -/
def toolEntryEx : ToolEntry :=
  { specName := "echo", run := fun _ => HandlerOutcome.ok [] }

/-- A registry where "echo" is registered but not authorized, while "ghost"
is authorized but never registered. -/
def registryEx : ToolRegistry :=
  { tools := [("echo", toolEntryEx)], authorized_tools := ["ghost"] }

/-- An agent state at the start of a run. -/
def agentEx : AgentState :=
  { name := "agent", system_prompt := "sys" }

/-- An empty run context over `agentEx`. -/
def runStateEx : RunState :=
  { agent := agentEx, events := [], invoked := [] }

/-- A pending tool call whose argument payload is not valid JSON. -/
def tcEx : ToolCall :=
  { id := "call-1", funcName := "shell_run", arguments := "not-json" }

/-- Environment for the parse-failure witness: every payload fails to parse. -/
def envEx6 : PromptEnv :=
  { task_id := "task-6",
    llm := LLMOutcome.reply { role := Role.assistant, content := "" },
    flagAfterLLM := false,
    flagBeforeCall := fun _ => false,
    parseArgs := fun _ => Except.error "boom",
    dumps := fun r => (r.error).getD "",
    registry := {} }

/-- The model reply a cancelled run discards. -/
def respEx7 : Message := { role := Role.assistant, content := "hi" }

/-- Environment for the cancellation witness: the cooperative flag was set
while the model call was suspended. -/
def envEx7 : PromptEnv :=
  { task_id := "task-7",
    llm := LLMOutcome.reply respEx7,
    flagAfterLLM := true,
    flagBeforeCall := fun _ => false,
    parseArgs := fun _ => Except.error "x",
    dumps := fun _ => "r",
    registry := {} }

/-- A model-side failure message as `LLMClient.generate_response` returns it. -/
def respEx8 : Message :=
  { role := Role.error, content := "LLM error: boom",
    meta := { error_type := some "RuntimeError" } }

/-- Environment for the model-failure witness. -/
def envEx8 : PromptEnv :=
  { task_id := "task-8",
    llm := LLMOutcome.reply respEx8,
    flagAfterLLM := false,
    flagBeforeCall := fun _ => false,
    parseArgs := fun _ => Except.error "x",
    dumps := fun _ => "r",
    registry := {} }

/-- A subscriber queue of capacity 1 that already holds one event. -/
def fullSubEx : SubQueue :=
  { maxsize := 1, items := [ErrorEvent "other" "old" Option.none] }

/-- An event bus with that full queue subscribed to `user_prompt` events. -/
def busEx : EventBus :=
  { queues := [], subscribers := [(EventType.user_prompt, [fullSubEx])] }

/-! ## Claim theorems -/

/-- C1 (counterexample): with a prior not-done task current, `start_task`
performs exactly a `cancel` of the prior task followed immediately by
`create_task` of the new one — it never awaits the prior task, so the claim
that the starter waits for the prior task's unwind (its cleanup clearing
`running`/`currentTaskId`) before the new task may mutate state is false:
no wait happens at all. -/
theorem startTask_no_wait_counterexample :
    (startTask { current_task := some { idx := 0, done := false } } 1).2 =
      [ControlAction.cancelTask 0, ControlAction.createTask 1] ∧
    ControlAction.awaitTask 0 ∉
      (startTask { current_task := some { idx := 0, done := false } } 1).2 := by
  decide

/-- C1 (amended): starting a new task while a prior task is still running
requests cancellation of the prior task before creating the new one, but the
starter performs no await of any task — it does not wait for the prior
task's unwind or cleanup — and immediately installs the new task as current. -/
theorem startTask_cancels_then_creates (c : TaskCtl) (t : TaskRef) (newIdx : Nat)
    (hc : c.current_task = some t) (hd : t.done = false) :
    (startTask c newIdx).2 =
      [ControlAction.cancelTask t.idx, ControlAction.createTask newIdx] ∧
    (∀ j, ControlAction.awaitTask j ∉ (startTask c newIdx).2) ∧
    (startTask c newIdx).1.current_task =
      some { idx := newIdx, done := false } := by
  refine ⟨?_, ?_, ?_⟩
  · simp [startTask, hc, hd]
  · intro j
    simp [startTask, hc, hd]
  · simp [startTask]

/-- C1 (witness for the amended theorem). -/
theorem startTask_cancels_then_creates_witness :
    (startTask { current_task := some { idx := 5, done := false } } 6).2 =
      [ControlAction.cancelTask 5, ControlAction.createTask 6] :=
  (startTask_cancels_then_creates
    { current_task := some { idx := 5, done := false } }
    { idx := 5, done := false } 6 rfl rfl).1

/-- C2 (code bug, evaluated at the failing input): publishing a
`user_prompt` event while a capacity-1 subscriber queue for that kind is
already full makes `EventBus.publish` block (the awaited
`subscriber_queue.put` suspends until a slot frees; it never raises the
`QueueFull` the code tries to catch), instead of completing and dropping
the event for that subscriber as specified. -/
theorem publish_blocks_on_full_subscriber :
    busEx.publish (UserPromptEvent "tab" "hello" "task-1") = Option.none := by
  rfl

/-- C3: for every relative path whose resolution against the workspace root
yields an absolute path that does not have the resolved workspace root as a
string prefix, both `FileReadTool.run` and `FileWriteTool.run` return a
"Path outside workspace" error with no filesystem side effect: no file
handle is opened and nothing is written. -/
theorem file_tools_reject_outside_workspace
    (resolve : String → Option String) (fs : FsView) (ws path : String)
    (fp wp : String)
    (hfp : resolve (pyJoin ws path) = some fp)
    (hwp : resolve ws = some wp)
    (hpre : pyStartsWith fp wp = false) :
    (∀ byteLimit, fileReadRun resolve fs ws path byteLimit =
      ({ error := some ("Path outside workspace: " ++ path),
         content := "", size := 0, truncated := false }, [])) ∧
    (∀ content mode, fileWriteRun resolve fs ws path content mode =
      ({ error := some ("Path outside workspace: " ++ path),
         bytes_written := 0 }, [])) := by
  have hsafe : isPathSafe resolve ws path = false := by
    simp [isPathSafe, hfp, hwp, hpre]
  constructor
  · intro byteLimit
    simp [fileReadRun, hsafe]
  · intro content mode
    simp [fileWriteRun, hsafe]

/-- C3 (witness): `"../secret"` against workspace `/ws` resolves to
`/secret`, is rejected by both tools, and neither performs any effect. -/
theorem file_tools_reject_outside_workspace_witness :
    resolveEx (pyJoin "/ws" "../secret") = some "/secret" ∧
    resolveEx "/ws" = some "/ws" ∧
    pyStartsWith "/secret" "/ws" = false ∧
    fileReadRun resolveEx fsEx "/ws" "../secret" 65536 =
      ({ error := some ("Path outside workspace: " ++ "../secret"),
         content := "", size := 0, truncated := false }, []) ∧
    fileWriteRun resolveEx fsEx "/ws" "../secret" "data" WriteMode.create =
      ({ error := some ("Path outside workspace: " ++ "../secret"),
         bytes_written := 0 }, []) := by
  refine ⟨by decide, by decide, by decide, ?_, ?_⟩
  · exact (file_tools_reject_outside_workspace resolveEx fsEx "/ws" "../secret"
      "/secret" "/ws" (by decide) (by decide) (by decide)).1 65536
  · exact (file_tools_reject_outside_workspace resolveEx fsEx "/ws" "../secret"
      "/secret" "/ws" (by decide) (by decide) (by decide)).2 "data" WriteMode.create

/-- C4: a command line whose first whitespace token is in the deny list is
rejected by `ShellRunTool.run` before any child process is created, with
`returncode = -1` and empty stdout/stderr, whatever the allow list holds —
the deny check runs before the allow check. -/
theorem shellRun_denied_rejected (allowed denied : List String)
    (cmd : String) (timeout_s : Int) (proc : ProcOutcome)
    (tok : String) (rest : List String)
    (hsplit : pySplit cmd = tok :: rest)
    (hdeny : tok ∈ denied) :
    shellRun allowed denied cmd timeout_s proc =
      ({ error := some ("Command not allowed: " ++ tok),
         stdout := "", stderr := "", returncode := -1 }, false) := by
  have hallow : isCommandAllowed allowed denied cmd = false := by
    simp [isCommandAllowed, hsplit, hdeny]
  simp [shellRun, hallow, hsplit]

/-- C4 (witness): `"rm -rf /"` with the default deny list (containing `rm`)
and a non-empty allow list is rejected with no process spawned. -/
theorem shellRun_denied_rejected_witness :
    pySplit "rm -rf /" = "rm" :: ["-rf", "/"] ∧
    "rm" ∈ ["rm", "shutdown", "reboot", "mkfs", "dd", "fdisk"] ∧
    shellRun ["python", "uv", "ls", "cat", "rg", "git", "pytest"]
        ["rm", "shutdown", "reboot", "mkfs", "dd", "fdisk"]
        "rm -rf /" 60 (ProcOutcome.completed "" "" 0) =
      ({ error := some ("Command not allowed: " ++ "rm"),
         stdout := "", stderr := "", returncode := -1 }, false) := by
  refine ⟨by decide, by decide, ?_⟩
  exact shellRun_denied_rejected _ _ "rm -rf /" 60 (ProcOutcome.completed "" "" 0)
    "rm" ["-rf", "/"] (by decide) (by decide)

/-- C5: `execute_tool` fails with the "not authorized" error whenever the
name is not in the authorized list (even if registered), and with the
"not found" error whenever the name is authorized but not registered; both
results have `success = false` and the handler is never invoked. -/
theorem executeTool_policy_failures (r : ToolRegistry) (tool_name : String)
    (kwargs : ToolArgs) :
    (tool_name ∉ r.authorized_tools →
      r.execute_tool tool_name kwargs =
        ExecOutcome.returned
          { success := false,
            error := some ("Tool \x27" ++ tool_name ++ "\x27 is not authorized") }
          false) ∧
    (tool_name ∈ r.authorized_tools → r.get_tool tool_name = Option.none →
      r.execute_tool tool_name kwargs =
        ExecOutcome.returned
          { success := false,
            error := some ("Tool \x27" ++ tool_name ++ "\x27 not found") }
          false) := by
  constructor
  · intro h
    simp [ToolRegistry.execute_tool, ToolRegistry.is_authorized, h]
  · intro h hreg
    simp [ToolRegistry.execute_tool, ToolRegistry.is_authorized, h, hreg]

/-- C5 (witness): in `registryEx`, "echo" is registered but unauthorized and
"ghost" is authorized but unregistered; both dispatches fail without
reaching a handler. -/
theorem executeTool_policy_failures_witness :
    ("echo" ∉ registryEx.authorized_tools ∧
      registryEx.execute_tool "echo" [] =
        ExecOutcome.returned
          { success := false,
            error := some ("Tool \x27" ++ "echo" ++ "\x27 is not authorized") }
          false) ∧
    ("ghost" ∈ registryEx.authorized_tools ∧
      registryEx.get_tool "ghost" = Option.none ∧
      registryEx.execute_tool "ghost" [] =
        ExecOutcome.returned
          { success := false,
            error := some ("Tool \x27" ++ "ghost" ++ "\x27 not found") }
          false) := by
  refine ⟨⟨by decide, ?_⟩, ⟨by decide, rfl, ?_⟩⟩
  · exact (executeTool_policy_failures registryEx "echo" []).1 (by decide)
  · exact (executeTool_policy_failures registryEx "ghost" []).2 (by decide) rfl

/-- C6: when a pending tool call's argument payload fails to parse and the
run is not cancelled, the loop continues with the remaining calls from a
state extended by exactly one `tool` message tagged with the call id
(carrying the synthesized `success = false` result) and one published
`ToolResult` event — no `ToolRequest` event is added and the registry
invocation trace is unchanged. -/
theorem toolCallLoop_invalid_arguments (env : PromptEnv) (tab_id : String)
    (tc : ToolCall) (rest : List ToolCall) (i : Nat) (s : RunState) (e : String)
    (hflag : env.flagBeforeCall i = false)
    (hparse : env.parseArgs tc.arguments = Except.error e) :
    toolCallLoop env tab_id (tc :: rest) i s =
      toolCallLoop env tab_id rest (i + 1)
        { agent := { s.agent with history := s.agent.history ++
            [toolResultMessage env tc.id (invalidJsonResult e)] },
          events := s.events ++
            [ToolResultEvent tab_id tc.id (invalidJsonResult e) env.task_id],
          invoked := s.invoked } := by
  simp [toolCallLoop, hflag, hparse, sendToolResult]

/-- C6 (witness): a single unparsable call yields exactly the synthesized
failure message and `ToolResult` event, and the loop moves on. -/
theorem toolCallLoop_invalid_arguments_witness :
    envEx6.flagBeforeCall 0 = false ∧
    envEx6.parseArgs tcEx.arguments = Except.error "boom" ∧
    toolCallLoop envEx6 "tab" [tcEx] 0 runStateEx =
      toolCallLoop envEx6 "tab" [] 1
        { agent := { runStateEx.agent with history := runStateEx.agent.history ++
            [toolResultMessage envEx6 tcEx.id (invalidJsonResult "boom")] },
          events := runStateEx.events ++
            [ToolResultEvent "tab" tcEx.id (invalidJsonResult "boom") envEx6.task_id],
          invoked := runStateEx.invoked } :=
  ⟨rfl, rfl,
    toolCallLoop_invalid_arguments envEx6 "tab" tcEx [] 0 runStateEx "boom" rfl rfl⟩

/-- C7: if the cooperative cancellation flag is set while the model call is
suspended, the model's reply is discarded entirely — history gains only the
user message, the only published event is `UserPrompt`, the registry is
never invoked, and cleanup leaves `running = false` with `current_task_id`
unset and nothing re-raised. -/
theorem processPrompt_cancelled_discards_result (env : PromptEnv)
    (agent0 : AgentState) (prompt tab_id : String) (response : Message)
    (hllm : env.llm = LLMOutcome.reply response)
    (hflag : env.flagAfterLLM = true) :
    (processPrompt env agent0 prompt tab_id).state.history =
      agent0.history ++ [{ role := Role.user, content := prompt }] ∧
    (processPrompt env agent0 prompt tab_id).events =
      [UserPromptEvent tab_id prompt env.task_id] ∧
    (processPrompt env agent0 prompt tab_id).invoked = [] ∧
    (processPrompt env agent0 prompt tab_id).state.running = false ∧
    (processPrompt env agent0 prompt tab_id).state.current_task_id = Option.none ∧
    (processPrompt env agent0 prompt tab_id).raised = Option.none := by
  refine ⟨?_, ?_, ?_, ?_, ?_, ?_⟩ <;>
    simp [processPrompt, promptBody, hllm, hflag]

/-- C7 (witness): a concrete cancelled run keeps only the user message and
the `UserPrompt` event. -/
theorem processPrompt_cancelled_discards_result_witness :
    envEx7.llm = LLMOutcome.reply respEx7 ∧
    envEx7.flagAfterLLM = true ∧
    ((processPrompt envEx7 agentEx "hello" "tab").state.history =
      agentEx.history ++ [{ role := Role.user, content := "hello" }] ∧
     (processPrompt envEx7 agentEx "hello" "tab").events =
      [UserPromptEvent "tab" "hello" envEx7.task_id] ∧
     (processPrompt envEx7 agentEx "hello" "tab").state.running = false) :=
  ⟨rfl, rfl,
    (processPrompt_cancelled_discards_result envEx7 agentEx "hello" "tab" respEx7
        rfl rfl).1,
    (processPrompt_cancelled_discards_result envEx7 agentEx "hello" "tab" respEx7
        rfl rfl).2.1,
    (processPrompt_cancelled_discards_result envEx7 agentEx "hello" "tab" respEx7
        rfl rfl).2.2.2.1⟩

/-- C8: when the model call returns a model-side failure (`role = "error"`)
and the run was not cancelled, the run publishes exactly `UserPrompt`
followed by one `Error` event carrying the failure text, appends nothing
beyond the user message (the failure is not put into history), invokes no
tool, raises nothing to the caller, and ends cleaned up. -/
theorem processPrompt_model_failure_error_event (env : PromptEnv)
    (agent0 : AgentState) (prompt tab_id : String) (response : Message)
    (hllm : env.llm = LLMOutcome.reply response)
    (hrole : response.role = Role.error)
    (hflag : env.flagAfterLLM = false) :
    (processPrompt env agent0 prompt tab_id).events =
      [UserPromptEvent tab_id prompt env.task_id,
       ErrorEvent tab_id response.content (some env.task_id)] ∧
    ((processPrompt env agent0 prompt tab_id).events.filter
        (fun ev => ev.type == EventType.error)) =
      [ErrorEvent tab_id response.content (some env.task_id)] ∧
    (processPrompt env agent0 prompt tab_id).state.history =
      agent0.history ++ [{ role := Role.user, content := prompt }] ∧
    (processPrompt env agent0 prompt tab_id).invoked = [] ∧
    (processPrompt env agent0 prompt tab_id).raised = Option.none ∧
    (processPrompt env agent0 prompt tab_id).state.running = false ∧
    (processPrompt env agent0 prompt tab_id).state.current_task_id =
      Option.none := by
  refine ⟨?_, ?_, ?_, ?_, ?_, ?_, ?_⟩ <;>
    simp [processPrompt, promptBody, hllm, hrole, hflag,
      UserPromptEvent, ErrorEvent, List.filter]

/-- C8 (witness): a concrete failing model call yields exactly one `Error`
event with the failure text and an unchanged history. -/
theorem processPrompt_model_failure_error_event_witness :
    envEx8.llm = LLMOutcome.reply respEx8 ∧
    respEx8.role = Role.error ∧
    envEx8.flagAfterLLM = false ∧
    ((processPrompt envEx8 agentEx "hello" "tab").events =
      [UserPromptEvent "tab" "hello" envEx8.task_id,
       ErrorEvent "tab" respEx8.content (some envEx8.task_id)] ∧
     (processPrompt envEx8 agentEx "hello" "tab").state.history =
      agentEx.history ++ [{ role := Role.user, content := "hello" }]) :=
  ⟨rfl, rfl, rfl,
    (processPrompt_model_failure_error_event envEx8 agentEx "hello" "tab" respEx8
        rfl rfl rfl).1,
    (processPrompt_model_failure_error_event envEx8 agentEx "hello" "tab" respEx8
        rfl rfl rfl).2.2.1⟩

/-- C9: every execution of `process_prompt` — success, model failure, an
unexpected exception, cooperative or hard cancellation, whatever the tool
round did — returns to the caller with `running = false` and
`current_task_id` cleared: the `finally` block always runs. -/
theorem processPrompt_cleanup_always (env : PromptEnv) (agent0 : AgentState)
    (prompt tab_id : String) :
    (processPrompt env agent0 prompt tab_id).state.running = false ∧
    (processPrompt env agent0 prompt tab_id).state.current_task_id =
      Option.none :=
  ⟨rfl, rfl⟩

/-- The events appended by `_send_tool_result`. -/
theorem sendToolResult_events (env : PromptEnv) (tab_id tool_call_id : String)
    (result : DispatchResult) (s : RunState) :
    (sendToolResult env tab_id tool_call_id result s).events =
      s.events ++ [ToolResultEvent tab_id tool_call_id result env.task_id] :=
  rfl

/-- Every event the tool-call loop adds is a `ToolRequest` or `ToolResult`
event of the current run: any predicate holding of those shapes and of the
starting events holds of every event after the loop. -/
theorem toolCallLoop_events_pred (env : PromptEnv) (tab_id : String)
    (p : Event → Prop)
    (hreq : ∀ nm args cid, p (ToolRequestEvent tab_id nm args cid env.task_id))
    (hres : ∀ cid result, p (ToolResultEvent tab_id cid result env.task_id)) :
    ∀ (calls : List ToolCall) (i : Nat) (s : RunState),
      (∀ ev ∈ s.events, p ev) →
      ∀ ev ∈ (toolCallLoop env tab_id calls i s).1.events, p ev := by
  intro calls
  induction calls with
  | nil =>
      intro i s hs
      simpa [toolCallLoop] using hs
  | cons tc rest ih =>
      intro i s hs
      cases hf : env.flagBeforeCall i with
      | true =>
          simpa [toolCallLoop, hf] using hs
      | false =>
          cases hp : env.parseArgs tc.arguments with
          | error e =>
              have hs1 : ∀ ev ∈ (sendToolResult env tab_id tc.id
                  (invalidJsonResult e) s).events, p ev := by
                intro ev hev
                rw [sendToolResult_events] at hev
                rcases List.mem_append.mp hev with h | h
                · exact hs _ h
                · rw [List.mem_singleton.mp h]
                  exact hres _ _
              simpa [toolCallLoop, hf, hp] using ih (i + 1) _ hs1
          | ok args =>
              cases hx : env.registry.execute_tool tc.funcName args with
              | propagated =>
                  have : ∀ ev ∈ (s.events ++
                      [ToolRequestEvent tab_id tc.funcName args tc.id env.task_id]),
                      p ev := by
                    intro ev hev
                    rcases List.mem_append.mp hev with h | h
                    · exact hs _ h
                    · rw [List.mem_singleton.mp h]
                      exact hreq _ _ _
                  simpa [toolCallLoop, hf, hp, hx] using this
              | returned result b =>
                  have hs1 := ih (i + 1)
                    (sendToolResult env tab_id tc.id result
                      { s with
                        events := s.events ++
                          [ToolRequestEvent tab_id tc.funcName args tc.id env.task_id],
                        invoked := s.invoked ++ [(tc.funcName, args)] })
                    (by
                      intro ev hev
                      rw [sendToolResult_events] at hev
                      simp only [List.mem_append, List.mem_singleton] at hev
                      rcases hev with (h | h) | h
                      · exact hs _ h
                      · rw [h]
                        exact hreq _ _ _
                      · rw [h]
                        exact hres _ _)
                  simpa [toolCallLoop, hf, hp, hx] using hs1

/-- Every event the `try:` body of `process_prompt` publishes is one of
`UserPrompt`, `AgentReply`, `Error`, `ToolRequest`, `ToolResult`. -/
theorem promptBody_events_pred (env : PromptEnv) (prompt tab_id : String)
    (p : Event → Prop)
    (huser : p (UserPromptEvent tab_id prompt env.task_id))
    (hreply : ∀ m, p (AgentReplyEvent tab_id m env.task_id))
    (herr : ∀ msg tid, p (ErrorEvent tab_id msg tid))
    (hreq : ∀ nm args cid, p (ToolRequestEvent tab_id nm args cid env.task_id))
    (hres : ∀ cid result, p (ToolResultEvent tab_id cid result env.task_id))
    (s : RunState) (hs : ∀ ev ∈ s.events, p ev) :
    ∀ ev ∈ (promptBody env prompt tab_id s).1.events, p ev := by
  have hs1 : ∀ ev ∈ (s.events ++ [UserPromptEvent tab_id prompt env.task_id]),
      p ev := by
    intro ev hev
    rcases List.mem_append.mp hev with h | h
    · exact hs _ h
    · rw [List.mem_singleton.mp h]
      exact huser
  cases hl : env.llm with
  | cancelledAtAwait =>
      simpa [promptBody, hl] using hs1
  | raiseAtAwait m =>
      simpa [promptBody, hl] using hs1
  | reply response =>
      cases hf : env.flagAfterLLM with
      | true =>
          simpa [promptBody, hl, hf] using hs1
      | false =>
          by_cases hr : response.role = Role.error
          · have : ∀ ev ∈ (s.events ++ [UserPromptEvent tab_id prompt env.task_id] ++
                [ErrorEvent tab_id response.content (some env.task_id)]), p ev := by
              intro ev hev
              rcases List.mem_append.mp hev with h | h
              · exact hs1 _ h
              · rw [List.mem_singleton.mp h]
                exact herr _ _
            simpa [promptBody, hl, hf, hr] using this
          · cases hm : response.meta.tool_calls with
            | none =>
                have : ∀ ev ∈ (s.events ++
                    [UserPromptEvent tab_id prompt env.task_id] ++
                    [AgentReplyEvent tab_id response env.task_id]), p ev := by
                  intro ev hev
                  rcases List.mem_append.mp hev with h | h
                  · exact hs1 _ h
                  · rw [List.mem_singleton.mp h]
                    exact hreply _
                simpa [promptBody, hl, hf, hr, hm] using this
            | some calls =>
                simp only [promptBody, hl, hf, hr, hm, handleToolCalls,
                  Bool.false_eq_true, if_false, Option.isSome_some, if_true,
                  Option.getD_some]
                refine toolCallLoop_events_pred env tab_id p hreq hres calls 0 _ ?_
                intro ev hev
                simp only [List.mem_append, List.mem_singleton] at hev
                rcases hev with (h | h) | h
                · exact hs _ h
                · rw [h]
                  exact huser
                · rw [h]
                  exact hreply _

/-- Every event `process_prompt` publishes, on every path including the
`except` handlers, is one of the five non-`Interrupt` constructors. -/
theorem processPrompt_events_pred (env : PromptEnv) (agent0 : AgentState)
    (prompt tab_id : String) (p : Event → Prop)
    (huser : p (UserPromptEvent tab_id prompt env.task_id))
    (hreply : ∀ m, p (AgentReplyEvent tab_id m env.task_id))
    (herr : ∀ msg tid, p (ErrorEvent tab_id msg tid))
    (hreq : ∀ nm args cid, p (ToolRequestEvent tab_id nm args cid env.task_id))
    (hres : ∀ cid result, p (ToolResultEvent tab_id cid result env.task_id)) :
    ∀ ev ∈ (processPrompt env agent0 prompt tab_id).events, p ev := by
  intro ev hev
  have hbody : ∀ e2 ∈ (promptBody env prompt tab_id
      { agent := { agent0 with
                   current_task_id := some env.task_id,
                   running := true },
        events := [],
        invoked := [] }).1.events, p e2 := by
    apply promptBody_events_pred env prompt tab_id p huser hreply herr hreq hres
    intro e2 he2
    exact absurd he2 (List.not_mem_nil e2)
  simp only [processPrompt] at hev
  generalize hx : promptBody env prompt tab_id
      { agent := { agent0 with
                   current_task_id := some env.task_id,
                   running := true },
        events := [],
        invoked := [] } = r at hev hbody
  rcases r with ⟨s1, exc⟩
  rcases exc with _ | e3
  · exact hbody ev hev
  · rcases e3 with _ | m
    · simp only [List.mem_append, List.mem_singleton] at hev
      rcases hev with h | h
      · exact hbody ev h
      · rw [h]
        exact herr _ _
    · simp only [List.mem_append, List.mem_singleton] at hev
      rcases hev with h | h
      · exact hbody ev h
      · rw [h]
        exact herr _ _

/-- C10: no operation of the executor ever publishes an `Interrupt` event:
every event of every `process_prompt` run has a type other than
`interrupt`, and `interrupt()` performs no publish action at all — even
though the `InterruptEvent` constructor (whose type IS `interrupt`) exists. -/
theorem no_interrupt_event_published (env : PromptEnv) (agent0 : AgentState)
    (prompt tab_id : String) :
    ((processPrompt env agent0 prompt tab_id).events.all
      (fun ev => ev.type != EventType.interrupt)) = true ∧
    (∀ c : TaskCtl, (interruptActions c).all
      (fun a => !a.isPublish) = true) ∧
    (InterruptEvent tab_id env.task_id).type = EventType.interrupt := by
  refine ⟨?_, ?_, rfl⟩
  · rw [List.all_eq_true]
    intro ev hev
    have := processPrompt_events_pred env agent0 prompt tab_id
      (fun e => e.type ≠ EventType.interrupt)
      (by simp [UserPromptEvent])
      (by intro m; simp [AgentReplyEvent])
      (by intro msg tid; simp [ErrorEvent])
      (by intro nm args cid; simp [ToolRequestEvent])
      (by intro cid result; simp [ToolResultEvent])
      ev hev
    simpa using this
  · intro c
    rcases c with ⟨_ | ⟨i, d⟩⟩
    · rfl
    · cases d
      · rfl
      · rfl

end Ryagent
